import Mathlib

/-!
# Verification of the youtube_research pipeline core

Shallow embedding of the two source files of the repository
(`1_search_ids.py`, `2_fetch_details.py`) and proofs about:

* the retrying HTTP fetch primitive `_get` shared by both stages,
* the paginated ID collector `search_and_save_ids`,
* the batching detail fetcher `get_video_details` with its helpers
  `chunked` and `to_int`,
* the keyword classifier `klasifikasi_konten_dengan_tag`.

Network effects are modelled by passing the sequence of per-attempt HTTP
outcomes (for `_get`) resp. a response-producing function (for the two
driving loops) as an explicit argument; sleeping is modelled by recording
the slept durations; printing is ignored.
-/

namespace YTR

/-! ## The `_get` retry primitive (identical in both source files)

```
def _get(url, params, max_retries=5, backoff=1.6):
    params = dict(params or {}); params["key"] = API_KEY
    for attempt in range(max_retries):
        try:
            r = requests.get(url, params=params, timeout=30)
            if r.status_code == 200: return r.json()
            if r.status_code in (403, 429, 500, 503):
                time.sleep(int(backoff ** attempt) + 1); continue
            r.raise_for_status()
        except requests.exceptions.RequestException as e:
            print(f"An error occurred: {e}. Retrying...")
            time.sleep(int(backoff ** attempt) + 1)
    raise RuntimeError(f"Failed after {max_retries} retries.")
```

One attempt of the loop observes either a network-level exception raised by
`requests.get` (a `requests.exceptions.RequestException`) or an HTTP
response with a status code and a (parsed) body.  `r.raise_for_status()`
raises `requests.exceptions.HTTPError` exactly for status codes in
`[400, 600)`; `HTTPError` is a subclass of `RequestException`, so an
exception raised by `raise_for_status` is caught by the `except` clause of
the same iteration, which sleeps and lets the loop move to the next
attempt.  For a non-error status other than 200 (e.g. a 3xx that survives
redirect handling, or a 2xx other than 200) `raise_for_status` returns
normally and the loop moves on without sleeping.  Consequently the only
ways out of `_get` are returning a 200 body and the terminal
`RuntimeError` after `max_retries` iterations. -/

/-- Outcome of one `requests.get` call: a network-level exception
(`requests.exceptions.RequestException` not caused by a status code), or an
HTTP response with status code and parsed JSON body (of abstract type `α`). -/
inductive HttpOutcome (α : Type) where
  | netErr : HttpOutcome α
  | resp (status : Nat) (body : α) : HttpOutcome α

/-- Result of a `_get` call: the parsed body of a 200 response, or the
terminal `RuntimeError("Failed after ... retries.")`. -/
inductive GetResult (α : Type) where
  | ok (body : α) : GetResult α
  | exhausted : GetResult α
deriving DecidableEq

/-- `r.status_code in (403, 429, 500, 503)`. -/
def retryableStatus (s : Nat) : Bool :=
  s == 403 || s == 429 || s == 500 || s == 503

/-- `r.raise_for_status()` raises `HTTPError` exactly for 4xx/5xx codes. -/
def raiseForStatusRaises (s : Nat) : Bool :=
  400 ≤ s && s < 600

/-- `int(backoff ** attempt) + 1` seconds with the default `backoff=1.6`,
computed exactly over rationals as `⌊(8/5)^attempt⌋ + 1`; for every attempt
index reachable under the default budget (0–4) the float computation
`int(1.6 ** attempt)` yields the same floor. -/
def sleepSeconds (attempt : Nat) : Nat :=
  8 ^ attempt / 5 ^ attempt + 1

/-- The attempt loop of `_get`.  `outcomes i` is what the `i`-th
`requests.get` call observes, `attempt` the current loop index, `fuel` the
remaining iterations of `range(max_retries)`.  Returns the result together
with the list of slept durations, in order. -/
def getAux (outcomes : Nat → HttpOutcome α) : Nat → Nat → GetResult α × List Nat
  | _, 0 => (GetResult.exhausted, [])
  | attempt, fuel + 1 =>
    match outcomes attempt with
    | HttpOutcome.netErr =>
      -- caught by `except RequestException`: sleep, next attempt
      let r := getAux outcomes (attempt + 1) fuel
      (r.1, sleepSeconds attempt :: r.2)
    | HttpOutcome.resp s body =>
      if s == 200 then (GetResult.ok body, [])
      else if retryableStatus s then
        let r := getAux outcomes (attempt + 1) fuel
        (r.1, sleepSeconds attempt :: r.2)
      else if raiseForStatusRaises s then
        -- `raise_for_status()` raises HTTPError ⊆ RequestException,
        -- caught by the same `except` clause: sleep, next attempt
        let r := getAux outcomes (attempt + 1) fuel
        (r.1, sleepSeconds attempt :: r.2)
      else
        -- `raise_for_status()` is a no-op; the attempt is consumed
        -- without sleeping
        getAux outcomes (attempt + 1) fuel

/-- `_get` with the default attempt budget `max_retries=5`. -/
def get (outcomes : Nat → HttpOutcome α) : GetResult α × List Nat :=
  getAux outcomes 0 5

/-! ## String primitives

The Python string operations used by the sources, modelled over the
character lists of Lean strings.  All strings occurring in the repository
(keyword vocabularies, labels, separators) are ASCII, for which these
models agree with the Python builtins. -/

/-- Python `needle in hay` on the underlying character lists: `listPre`
checks a prefix, `listSub` checks containment at any position. -/
def listPre : List Char → List Char → Bool
  | [], _ => true
  | _ :: _, [] => false
  | a :: as, b :: bs => a == b && listPre as bs

/-- Substring containment on character lists (empty needle matches). -/
def listSub (needle : List Char) : List Char → Bool
  | [] => needle.isEmpty
  | b :: bs => listPre needle (b :: bs) || listSub needle bs

/-- Python `needle in hay` (substring containment). -/
def inStr (needle hay : String) : Bool :=
  listSub needle.data hay.data

/-- Python `s.lower()`, per-character ASCII lowercasing (the sources only
lowercase before matching ASCII keyword vocabularies). -/
def lowerStr (s : String) : String :=
  String.mk (s.data.map Char.toLower)

/-- Python `"|".join(parts)`. -/
def joinPipe : List String → String
  | [] => ""
  | [s] => s
  | s :: rest => s ++ "|" ++ joinPipe rest

/-- Strict lexicographic comparison of character lists by code point. -/
def charListLt : List Char → List Char → Bool
  | _, [] => false
  | [], _ :: _ => true
  | a :: as, b :: bs =>
    decide (a.toNat < b.toNat) || (a.toNat == b.toNat && charListLt as bs)

/-- Python `a <= b` on strings: lexicographic by code point; in the total
lexicographic order `a <= b` is `not (b < a)`. -/
def strLe (a b : String) : Bool :=
  !(charListLt b.data a.data)

/-- Insert into a `strLe`-sorted list, keeping earlier-inserted equals last. -/
def insertSorted (a : String) : List String → List String
  | [] => [a]
  | b :: bs => if strLe a b then a :: b :: bs else b :: insertSorted a bs

/-- Python `sorted(tags)`: stable ascending sort.  On the duplicate-free
label lists built by the classifier any correct sort produces the same
list; insertion sort is used because it is structurally recursive. -/
def sortedList (l : List String) : List String :=
  l.foldr insertSorted []

/-- Observer used to state label-set properties: splits a pipe-joined
label string back into its labels (inverse of `joinPipe` on nonempty
pipe-free labels). -/
def pipeSplitAux : List Char → List Char → List String
  | [], acc => [String.mk acc.reverse]
  | c :: cs, acc =>
    if c == '|' then String.mk acc.reverse :: pipeSplitAux cs []
    else pipeSplitAux cs (c :: acc)

/-- The labels of a pipe-joined label string. -/
def pipeSplit (s : String) : List String :=
  pipeSplitAux s.data []

/-! ## Keyword vocabularies (`2_fetch_details.py`, module level) -/

/-- `AI_KEYWORDS` of `2_fetch_details.py` (the classifier's generic
AI vocabulary; `1_search_ids.py` has a distinct list used only to build
the default search query, which is excluded plumbing). -/
def AI_KEYWORDS : List String := [
  "ai generated", "ai video", "text-to-video", "sora", "runway gen-3", "runwayml",
  "pika labs", "gen-3", "midjourney", "luma ai", "google veo", "veo3",
  "synthesia", "heygen", "kaiber", "stable video diffusion", "d-id",
  "hailuo", "kling", "nano-banana", "gpt", "chatgpt", "elevenlabs"
]

/-- Creative-work terms. -/
def KREATIF_TERMS : List String :=
  ["short film", "music video", "animation", "story", "art", "movie", "song",
   "fiction", "cerita", "film pendek", "video musik"]

/-- Tutorial/education terms. -/
def EDUKASI_TERMS : List String :=
  ["tutorial", "how to", "guide", "masterclass", "lesson", "course", "explained",
   "walkthrough", "create", "cara membuat", "cara pakai", "panduan", "belajar", "tips"]

/-- Review/news terms. -/
def ULASAN_TERMS : List String :=
  ["review", "news", "update", "demo", "vs", "versus", "hands-on", "first look",
   "analysis", "report", "reaction", "ulasan", "berita"]

/-- Experiment terms. -/
def EKSPERIMEN_TERMS : List String :=
  ["experiment", "test", "challenge", "prompt", "showcase", "uji coba"]

/-! ## `to_int` and the Python `int(...)` parser

```
def to_int(x, default=0):
    try: return int(x)
    except: return default
```

`int` on a string accepts optional surrounding whitespace, an optional
sign, and a nonempty digit sequence in which single underscores may
separate digits; anything else raises `ValueError`, and `int(None)` raises
`TypeError` — both caught by the bare `except`. -/

def isPyDigit (c : Char) : Bool := '0' ≤ c && c ≤ '9'

def isPyWs (c : Char) : Bool :=
  c == ' ' || c == '\t' || c == '\n' || c == '\r' || c == '\x0b' || c == '\x0c'

def trimLeadWs : List Char → List Char
  | [] => []
  | c :: r => if isPyWs c then trimLeadWs r else c :: r

def trimWs (l : List Char) : List Char :=
  (trimLeadWs (trimLeadWs l.reverse)).reverse

def digitsToNat (l : List Char) : Nat :=
  l.foldl (fun n c => 10 * n + (c.toNat - '0'.toNat)) 0

/-- After a leading digit: a sequence of digits in which a single
underscore may precede each digit; returns the digits. -/
def groupDigits : List Char → Option (List Char)
  | [] => some []
  | c :: rest =>
    if isPyDigit c then (groupDigits rest).map (fun l => c :: l)
    else if c == '_' then
      match rest with
      | [] => none
      | d :: rest2 =>
        if isPyDigit d then (groupDigits rest2).map (fun l => d :: l) else none
    else none

/-- A nonempty digit sequence starting with a digit. -/
def parseUnsigned (l : List Char) : Option Nat :=
  match l with
  | [] => none
  | c :: rest =>
    if isPyDigit c then (groupDigits rest).map (fun ds => digitsToNat (c :: ds))
    else none

/-- Python `int(s)` for a string `s`: `some` the parsed integer, `none`
when `int` raises `ValueError`. -/
def pyIntOfString (s : String) : Option Int :=
  match trimWs s.data with
  | '+' :: rest => (parseUnsigned rest).map (fun n => (n : Int))
  | '-' :: rest => (parseUnsigned rest).map (fun n => -(n : Int))
  | l => (parseUnsigned l).map (fun n => (n : Int))

/-- `to_int` of `2_fetch_details.py`; the argument is the optional string
taken from a statistics field (`None` when the field is absent). -/
def to_int (x : Option String) (default : Int := 0) : Int :=
  match x with
  | none => default
  | some s =>
    match pyIntOfString s with
    | some n => n
    | none => default

/-! ## `chunked` (`2_fetch_details.py`)

```
def chunked(iterable, n):
    buf = [];
    for x in iterable:
        buf.append(x)
        if len(buf) == n: yield buf; buf = []
    if buf: yield buf
```
-/

/-- The loop of `chunked` with the current buffer made explicit. -/
def chunkedAux (n : Nat) : List α → List α → List (List α)
  | [], buf => if buf.isEmpty then [] else [buf]
  | x :: xs, buf =>
    let buf' := buf ++ [x]
    if buf'.length == n then buf' :: chunkedAux n xs []
    else chunkedAux n xs buf'

/-- `chunked(iterable, n)`, as the list of yielded groups in order. -/
def chunked (xs : List α) (n : Nat) : List (List α) :=
  chunkedAux n xs []

/-! ## The rows built by `get_video_details` and the classifier's input

A row is the dictionary appended for one API item; the classifier is later
applied to such rows (pandas `df.apply(..., axis=1)`), reading only the
`title` and `description` keys.  String-valued keys whose extraction can
produce Python `None` are modelled as `Option String`. -/

structure Row where
  videoId : Option String
  publishedAt : Option String
  channelId : Option String
  channelTitle : Option String
  title : Option String
  description : Option String
  tags : String
  categoryId : Option String
  duration : Option String
  viewCount : Int
  likeCount : Int
  commentCount : Int
  url : String
deriving DecidableEq

/-! ## The classifier `klasifikasi_konten_dengan_tag` -/

/-- The corpus of a row:
`" ".join([str(row.get("title") or ""), str(row.get("description") or "")]).lower()`.
`x or ""` maps both `None` and `""` to `""`, i.e. `Option.getD ""` here. -/
def corpusOf (row : Row) : String :=
  lowerStr ((row.title.getD "") ++ " " ++ (row.description.getD ""))

/-- Label-string construction from the five membership-test results, in
the source's order: the four category `any(term in text_corpus ...)` tests,
then the generic-AI fallback, then the `Irrelevant` sentinel, then
`"|".join(sorted(tags))`. -/
def tagStringOfMatches (b1 b2 b3 b4 bAI : Bool) : String :=
  let tags : List String := []
  let tags := if b1 then tags ++ ["creative_work"] else tags
  let tags := if b2 then tags ++ ["education_tutorial"] else tags
  let tags := if b3 then tags ++ ["review_news"] else tags
  let tags := if b4 then tags ++ ["experiment"] else tags
  let tags := if tags.isEmpty && bAI then tags ++ ["general_ai_content"] else tags
  if tags.isEmpty then "Irrelevant"
  else joinPipe (sortedList tags)

/-- `klasifikasi_konten_dengan_tag(row)` of `2_fetch_details.py`. -/
def klasifikasi_konten_dengan_tag (row : Row) : String :=
  let text_corpus := corpusOf row
  tagStringOfMatches
    (KREATIF_TERMS.any (fun term => inStr term text_corpus))
    (EDUKASI_TERMS.any (fun term => inStr term text_corpus))
    (ULASAN_TERMS.any (fun term => inStr term text_corpus))
    (EKSPERIMEN_TERMS.any (fun term => inStr term text_corpus))
    (AI_KEYWORDS.any (fun keyword => inStr keyword text_corpus))

/-! ## `get_video_details` (`2_fetch_details.py`)

The upstream batch-detail endpoint is modelled as a function from the
id-batch (the source joins it with `","` into the `id` parameter) to the
parsed JSON of a successful `_get`; a JSON object is modelled by the
fields the source reads. -/

structure Snippet where
  publishedAt : Option String
  channelId : Option String
  channelTitle : Option String
  title : Option String
  description : Option String
  tags : Option (List String)
  categoryId : Option String

/-- `{}`: every `get` returns `None`. -/
def emptySnippet : Snippet := ⟨none, none, none, none, none, none, none⟩

structure Statistics where
  viewCount : Option String
  likeCount : Option String
  commentCount : Option String

def emptyStatistics : Statistics := ⟨none, none, none⟩

structure ContentDetails where
  duration : Option String

def emptyContentDetails : ContentDetails := ⟨none⟩

structure Item where
  id : Option String
  snippet : Option Snippet
  statistics : Option Statistics
  contentDetails : Option ContentDetails

structure DetailResponse where
  items : List Item

/-- Python `f"...{x}"` of an optional string: `None` prints as `"None"`. -/
def pyStrOfOpt : Option String → String
  | some s => s
  | none => "None"

/-- The row dictionary appended for one item `it` of a batch response,
with the source's defensive defaults:
`sn = it.get("snippet", {}) or {}` etc., `tags = sn.get("tags") or []`,
`"|".join(tags) if tags else ""`, and `to_int` on the statistics. -/
def itemToRow (it : Item) : Row :=
  let sn := it.snippet.getD emptySnippet
  let st := it.statistics.getD emptyStatistics
  let cd := it.contentDetails.getD emptyContentDetails
  let tags := sn.tags.getD []
  { videoId := it.id
    publishedAt := sn.publishedAt
    channelId := sn.channelId
    channelTitle := sn.channelTitle
    title := sn.title
    description := sn.description
    tags := if tags.isEmpty then "" else joinPipe tags
    categoryId := sn.categoryId
    duration := cd.duration
    viewCount := to_int st.viewCount
    likeCount := to_int st.likeCount
    commentCount := to_int st.commentCount
    url := "https://www.youtube.com/watch?v=" ++ pyStrOfOpt it.id }

/-- The batch loop of `get_video_details`: one `_get` per group yielded by
`chunked(video_ids, 50)`, rows accumulated in order.  The second component
records the batches passed upstream, one entry per `_get` call, in call
order (instrumentation for the call-count specification). -/
def getVideoDetailsAux (api : List String → DetailResponse) :
    List (List String) → List Row × List (List String)
  | [] => ([], [])
  | batch :: rest =>
    let data := api batch
    let r := getVideoDetailsAux api rest
    (data.items.map itemToRow ++ r.1, batch :: r.2)

/-- `get_video_details(video_ids)`: the produced rows together with the
sequence of issued batch calls. -/
def get_video_details (api : List String → DetailResponse) (video_ids : List String) :
    List Row × List (List String) :=
  getVideoDetailsAux api (chunked video_ids 50)

/-! ## `search_and_save_ids` (`1_search_ids.py`)

The search endpoint is modelled as a function from the continuation token
(`None` on the first page) to the parsed JSON of a successful `_get`.  The
Python `set` of found ids is modelled as a duplicate-free list in insertion
order: membership and cardinality — all that the loop and the claims use —
agree with the set.  The `while` loop is run on explicit fuel: a run that
would iterate longer is cut after `fuel` pages (every terminating run of
the source corresponds to a large enough fuel). -/

structure SearchId where
  videoId : Option String

structure SearchItem where
  id : Option SearchId

structure SearchResponse where
  items : List SearchItem
  nextPageToken : Option String

/-- `item.get("id", {}).get("videoId")`. -/
def extractVideoId (item : SearchItem) : Option String :=
  match item.id with
  | none => none
  | some i => i.videoId

/-- One body execution of the `for item in data.get("items", [])` loop:
`if video_id: found_ids.add(video_id)` (Python truthiness skips both a
missing and an empty identifier); adding to the set is modelled as
appending when not yet present. -/
def addItem (acc : List String) (item : SearchItem) : List String :=
  match extractVideoId item with
  | some v => if v = "" then acc else if v ∈ acc then acc else acc ++ [v]
  | none => acc

/-- The whole inner loop over a page's item list. -/
def addItems (found : List String) (items : List SearchItem) : List String :=
  items.foldl addItem found

/-- The `while len(found_ids) < args.max_results` loop; returns the
accumulated ids and the log of fetched pages in order.
`if not next_token: break` treats a missing and an empty token alike. -/
def collectLoop (api : Option String → SearchResponse) (maxResults : Nat) :
    Nat → Option String → List String → List String × List SearchResponse
  | 0, _, found => (found, [])
  | fuel + 1, token, found =>
    if found.length < maxResults then
      let data := api token
      let found' := addItems found data.items
      match data.nextPageToken with
      | none => (found', [data])
      | some t =>
        if t = "" then (found', [data])
        else
          let r := collectLoop api maxResults fuel (some t) found'
          (r.1, data :: r.2)
    else (found, [])

/-- `search_and_save_ids`: runs the page loop from an empty set and no
token, and persists `list(found_ids)[:max_results]`.  Returns the
persisted ids and the log of fetched pages. -/
def search_and_save_ids (api : Option String → SearchResponse)
    (maxResults fuel : Nat) : List String × List SearchResponse :=
  let r := collectLoop api maxResults fuel none []
  (r.1.take maxResults, r.2)

/-! # Theorems -/

/-! ## C2: retry budget of `_get` -/

/-- C2: with the default budget of 5 attempts, four HTTP 429 responses
followed by an HTTP 200 make `_get` return the parsed body of the fifth
response, and five HTTP 500 responses make `_get` raise the
retries-exhausted `RuntimeError`. -/
theorem get_retry_budget (α : Type) (b junk : α) :
    (get fun i => if i < 4 then HttpOutcome.resp 429 junk else HttpOutcome.resp 200 b).1
      = GetResult.ok b
    ∧ (get fun _ => HttpOutcome.resp 500 junk).1 = GetResult.exhausted := by
  constructor <;> rfl

/-! ## C1: statuses outside {200, 403, 429, 500, 503} -/

/-- C1 counterexample: on five consecutive HTTP 404 responses, `_get` does
not raise on the first attempt: the `HTTPError` raised by
`raise_for_status()` is a `RequestException` and is caught by the retry
handler, so the call sleeps five times (2, 2, 3, 5 and 7 seconds),
consumes the whole attempt budget, and ends in the retries-exhausted
error — contradicting "raises immediately ... without sleeping and
without consuming any further retry attempts". -/
theorem get_status_404_retries :
    (get fun _ => HttpOutcome.resp 404 (0 : Nat)).1 = GetResult.exhausted
    ∧ (get fun _ => HttpOutcome.resp 404 (0 : Nat)).2 = [2, 2, 3, 5, 7] := by
  constructor <;> rfl

/-- C1 amended: for a status outside {200, 403, 429, 500, 503}, `_get`
never raises on the observing attempt.  If the status is an error status
(400–599), `raise_for_status()` raises an `HTTPError`, which is caught by
the same `except RequestException` clause as network errors, so the call
sleeps with backoff and retries until the budget is exhausted; if the
status is a non-error status other than 200, the attempt is consumed
without sleeping and without raising.  Either way a constant such status
yields the retries-exhausted error after the full budget. -/
theorem get_unexpected_status_policy (α : Type) (s : Nat) (b : α)
    (hne : s ≠ 200) (hnr : retryableStatus s = false) :
    (raiseForStatusRaises s = true →
      (get fun _ => HttpOutcome.resp s b).1 = GetResult.exhausted
      ∧ (get fun _ => HttpOutcome.resp s b).2 = [2, 2, 3, 5, 7])
    ∧ (raiseForStatusRaises s = false →
      (get fun _ => HttpOutcome.resp s b).1 = GetResult.exhausted
      ∧ (get fun _ => HttpOutcome.resp s b).2 = []) := by
  have h200 : (s == 200) = false := by simp [hne]
  constructor <;> intro h <;>
    simp [get, getAux, h200, hnr, h, sleepSeconds]

/-- Witness for the amended C1 at the concrete statuses 404 (error status:
retried with five sleeps, then exhausted) and 304 (non-error status:
exhausted with no sleep). -/
theorem get_unexpected_status_policy_witness :
    ((get fun _ => HttpOutcome.resp 404 (1 : Nat)).1 = GetResult.exhausted
      ∧ (get fun _ => HttpOutcome.resp 404 (1 : Nat)).2 = [2, 2, 3, 5, 7])
    ∧ ((get fun _ => HttpOutcome.resp 304 (1 : Nat)).1 = GetResult.exhausted
      ∧ (get fun _ => HttpOutcome.resp 304 (1 : Nat)).2 = []) :=
  ⟨(get_unexpected_status_policy Nat 404 1 (by decide) (by decide)).1 (by decide),
   (get_unexpected_status_policy Nat 304 1 (by decide) (by decide)).2 (by decide)⟩

/-! ## C7: totality of `to_int` -/

/-- C7: `to_int` is a total function into the integers (the bare
`except` catches both the `TypeError` of `int(None)` and the `ValueError`
of an unparseable string): it returns the parsed integer when the input
parses under Python `int`, and the default when the input is `None` or
unparseable. -/
theorem to_int_total_spec :
    (∀ d : Int, to_int none d = d)
    ∧ (∀ (s : String) (n d : Int), pyIntOfString s = some n → to_int (some s) d = n)
    ∧ (∀ (s : String) (d : Int), pyIntOfString s = none → to_int (some s) d = d) := by
  refine ⟨fun _ => rfl, ?_, ?_⟩
  · intro s n d h; simp [to_int, h]
  · intro s d h; simp [to_int, h]

/-- Witness for C7 at `None`, a parseable string and an unparseable one. -/
theorem to_int_total_spec_witness :
    to_int none 0 = 0 ∧ to_int (some "123") 0 = 123 ∧ to_int (some "abc") 0 = 0 :=
  ⟨to_int_total_spec.1 0,
   to_int_total_spec.2.1 "123" 123 0 (by decide),
   to_int_total_spec.2.2 "abc" 0 (by decide)⟩

/-! ## C8: the "AI Generated Short Film Tutorial" scenario -/

/-- C8: a record with title "AI Generated Short Film Tutorial" (and no
description) yields the lower-cased corpus
"ai generated short film tutorial " (the join of title and the empty
description leaves one trailing space); the corpus contains the
creative-work term "short film" and the education term "tutorial", and the
classifier returns exactly "creative_work|education_tutorial". -/
theorem classify_short_film_tutorial :
    corpusOf { videoId := none, publishedAt := none, channelId := none,
               channelTitle := none, title := some "AI Generated Short Film Tutorial",
               description := none, tags := "", categoryId := none, duration := none,
               viewCount := 0, likeCount := 0, commentCount := 0, url := "" }
      = "ai generated short film tutorial "
    ∧ inStr "short film" "ai generated short film tutorial " = true
    ∧ inStr "tutorial" "ai generated short film tutorial " = true
    ∧ klasifikasi_konten_dengan_tag
        { videoId := none, publishedAt := none, channelId := none,
          channelTitle := none, title := some "AI Generated Short Film Tutorial",
          description := none, tags := "", categoryId := none, duration := none,
          viewCount := 0, likeCount := 0, commentCount := 0, url := "" }
      = "creative_work|education_tutorial" := by
  refine ⟨by decide, by decide, by decide, by decide⟩

/-! ## C9: the classifier reads only title and description -/

/-- C9: the classifier is a deterministic function of the title and
description text alone (absent fields read as empty strings): two rows
agreeing on that text are classified identically, whatever their other
fields hold. -/
theorem classifier_depends_only_on_text (r1 r2 : Row)
    (ht : r1.title.getD "" = r2.title.getD "")
    (hd : r1.description.getD "" = r2.description.getD "") :
    klasifikasi_konten_dengan_tag r1 = klasifikasi_konten_dengan_tag r2 := by
  unfold klasifikasi_konten_dengan_tag corpusOf
  rw [ht, hd]

/-- Witness for C9: two rows with the same text but different ids,
channels, statistics and urls (and `none` versus `some ""` description)
get the same label string. -/
theorem classifier_depends_only_on_text_witness :
    klasifikasi_konten_dengan_tag
        { videoId := some "a", publishedAt := none, channelId := none,
          channelTitle := none, title := some "sora test", description := none,
          tags := "", categoryId := none, duration := none,
          viewCount := 3, likeCount := 1, commentCount := 0, url := "u" }
      = klasifikasi_konten_dengan_tag
        { videoId := some "b", publishedAt := some "2024-01-01",
          channelId := some "c", channelTitle := some "ch",
          title := some "sora test", description := some "",
          tags := "x|y", categoryId := some "22", duration := some "PT1M",
          viewCount := 999, likeCount := -4, commentCount := 7, url := "w" } :=
  classifier_depends_only_on_text _ _ rfl rfl

/-! ## C3: the `Irrelevant` sentinel -/

/-- C3: the label `Irrelevant` appears in the classifier output exactly
when none of the four category keyword sets and none of the generic AI
keywords matched the corpus, and whenever it appears it is the sole
label. -/
theorem irrelevant_sentinel (row : Row) :
    ("Irrelevant" ∈ pipeSplit (klasifikasi_konten_dengan_tag row) ↔
      (KREATIF_TERMS.any (fun term => inStr term (corpusOf row)) = false
       ∧ EDUKASI_TERMS.any (fun term => inStr term (corpusOf row)) = false
       ∧ ULASAN_TERMS.any (fun term => inStr term (corpusOf row)) = false
       ∧ EKSPERIMEN_TERMS.any (fun term => inStr term (corpusOf row)) = false
       ∧ AI_KEYWORDS.any (fun keyword => inStr keyword (corpusOf row)) = false))
    ∧ ("Irrelevant" ∈ pipeSplit (klasifikasi_konten_dengan_tag row) →
        pipeSplit (klasifikasi_konten_dengan_tag row) = ["Irrelevant"]) := by
  have key : ∀ b1 b2 b3 b4 bAI : Bool,
      ("Irrelevant" ∈ pipeSplit (tagStringOfMatches b1 b2 b3 b4 bAI) ↔
        (b1 = false ∧ b2 = false ∧ b3 = false ∧ b4 = false ∧ bAI = false))
      ∧ ("Irrelevant" ∈ pipeSplit (tagStringOfMatches b1 b2 b3 b4 bAI) →
          pipeSplit (tagStringOfMatches b1 b2 b3 b4 bAI) = ["Irrelevant"]) := by
    decide
  exact key _ _ _ _ _

/-- Witness for C3 at a row whose corpus matches nothing: the output's
label list is exactly `["Irrelevant"]`. -/
theorem irrelevant_sentinel_witness :
    pipeSplit (klasifikasi_konten_dengan_tag
        { videoId := none, publishedAt := none, channelId := none,
          channelTitle := none, title := some "hello world", description := none,
          tags := "", categoryId := none, duration := none,
          viewCount := 0, likeCount := 0, commentCount := 0, url := "" })
      = ["Irrelevant"] :=
  (irrelevant_sentinel _).2 (by decide)

/-! ## Lemmas about `chunked` (shared by C10 and C6) -/

/-- When the buffer plus the remaining input fall short of `n`, the loop
yields at most the final flush. -/
lemma chunkedAux_small {α : Type} (n : Nat) :
    ∀ (xs buf : List α), buf.length + xs.length < n →
      chunkedAux n xs buf = if (buf ++ xs).isEmpty then [] else [buf ++ xs] := by
  intro xs
  induction xs with
  | nil => intro buf _; simp only [chunkedAux, List.append_nil]
  | cons x xs ih =>
    intro buf h
    simp only [List.length_cons] at h
    have hlen : (buf ++ [x]).length ≠ n := by
      simp only [List.length_append, List.length_cons, List.length_nil]
      omega
    have hrec := ih (buf ++ [x]) (by
      simp only [List.length_append, List.length_cons, List.length_nil]
      omega)
    simp only [chunkedAux]
    rw [if_neg (by simpa using hlen)]
    rw [hrec]
    simp

/-- When the buffer plus the remaining input reach `n`, the loop first
yields the filled-up buffer and restarts empty on the rest. -/
lemma chunkedAux_big {α : Type} (n : Nat) :
    ∀ (xs buf : List α), buf.length < n → n ≤ buf.length + xs.length →
      chunkedAux n xs buf =
        (buf ++ xs.take (n - buf.length)) :: chunkedAux n (xs.drop (n - buf.length)) [] := by
  intro xs
  induction xs with
  | nil =>
    intro buf h1 h2
    simp only [List.length_nil] at h2
    omega
  | cons x xs ih =>
    intro buf h1 h2
    by_cases hfill : buf.length + 1 = n
    · have hk : n - buf.length = 1 := by omega
      simp only [chunkedAux]
      rw [if_pos (by simp [hfill])]
      rw [hk]
      simp
    · have hlt : (buf ++ [x]).length < n := by simp; omega
      have hge : n ≤ (buf ++ [x]).length + xs.length := by simp at h2 ⊢; omega
      have hk : n - buf.length = (n - (buf.length + 1)) + 1 := by omega
      simp only [chunkedAux]
      rw [if_neg (by simp; omega)]
      rw [ih (buf ++ [x]) hlt hge]
      rw [hk]
      simp [List.take_succ_cons, List.drop_succ_cons, List.length_append]

lemma chunked_nil {α : Type} (n : Nat) : chunked ([] : List α) n = [] := rfl

/-- For `0 < n` the generator's first group is `take n`, and the rest is
`chunked` of `drop n`. -/
lemma chunked_cons {α : Type} (n : Nat) (hn : 0 < n) (xs : List α) (hxs : xs ≠ []) :
    chunked xs n = xs.take n :: chunked (xs.drop n) n := by
  by_cases hlen : xs.length < n
  · rw [chunked, chunkedAux_small n xs [] (by simpa using hlen)]
    rw [List.take_of_length_le (le_of_lt hlen), List.drop_eq_nil_of_le (le_of_lt hlen)]
    simp [chunked_nil, hxs]
  · rw [chunked, chunkedAux_big n xs [] hn (by simpa using Nat.le_of_not_lt hlen)]
    simp [chunked]

lemma chunked_eq_nil_iff {α : Type} (n : Nat) (hn : 0 < n) (xs : List α) :
    chunked xs n = [] ↔ xs = [] := by
  constructor
  · intro h
    by_contra hxs
    rw [chunked_cons n hn xs hxs] at h
    exact List.cons_ne_nil _ _ h
  · intro h; subst h; exact chunked_nil n

/-- Induction along the groups of `chunked`: to prove `P` of every list it
suffices to prove it of `[]` and to carry it from `drop n` to the list. -/
lemma chunked_rec {α : Type} (n : Nat) (hn : 0 < n) (P : List α → Prop)
    (hnil : P []) (hstep : ∀ xs, xs ≠ [] → P (xs.drop n) → P xs) :
    ∀ xs, P xs := by
  have main : ∀ (m : Nat) (xs : List α), xs.length ≤ m → P xs := by
    intro m
    induction m with
    | zero =>
      intro xs h
      have : xs = [] := List.eq_nil_of_length_eq_zero (Nat.le_zero.mp h)
      simpa [this]
    | succ m ih =>
      intro xs h
      by_cases hxs : xs = []
      · simpa [hxs]
      · refine hstep xs hxs (ih _ ?_)
        have hpos : 0 < xs.length := List.length_pos.mpr hxs
        simp only [List.length_drop]
        omega
  exact fun xs => main xs.length xs le_rfl

lemma chunked_join {α : Type} (n : Nat) (hn : 0 < n) :
    ∀ xs : List α, (chunked xs n).flatten = xs := by
  refine chunked_rec n hn (fun xs => (chunked xs n).flatten = xs) ?_ ?_
  · simp [chunked_nil]
  · intro xs hxs ih
    rw [chunked_cons n hn xs hxs]
    simp only [List.flatten_cons, ih, List.take_append_drop]

lemma chunked_groups {α : Type} (n : Nat) (hn : 0 < n) :
    ∀ xs : List α, ∀ g ∈ chunked xs n, g ≠ [] ∧ g.length ≤ n := by
  refine chunked_rec n hn (fun xs => ∀ g ∈ chunked xs n, g ≠ [] ∧ g.length ≤ n) ?_ ?_
  · simp [chunked_nil]
  · intro xs hxs ih g hg
    rw [chunked_cons n hn xs hxs] at hg
    rcases List.mem_cons.mp hg with hg | hg
    · subst hg
      constructor
      · have : 0 < (xs.take n).length := by
          rw [List.length_take]
          exact lt_min hn (List.length_pos.mpr hxs)
        exact List.ne_nil_of_length_pos this
      · rw [List.length_take]; exact min_le_left _ _
    · exact ih g hg

lemma chunked_full {α : Type} (n : Nat) (hn : 0 < n) :
    ∀ xs : List α, ∀ g ∈ (chunked xs n).dropLast, g.length = n := by
  refine chunked_rec n hn (fun xs => ∀ g ∈ (chunked xs n).dropLast, g.length = n) ?_ ?_
  · simp [chunked_nil]
  · intro xs hxs ih g hg
    rw [chunked_cons n hn xs hxs] at hg
    rcases hrest : chunked (xs.drop n) n with _ | ⟨r, rs⟩
    · rw [hrest] at hg
      simp at hg
    · rw [hrest] at hg
      rw [List.dropLast_cons₂] at hg
      rcases List.mem_cons.mp hg with hg | hg
      · subst hg
        have hdrop : xs.drop n ≠ [] := by
          intro hd
          rw [hd, chunked_nil] at hrest
          exact List.cons_ne_nil _ _ hrest.symm
        have hlen : n ≤ xs.length := by
          by_contra hlt
          exact hdrop (List.drop_eq_nil_of_le (by omega))
        rw [List.length_take]
        exact min_eq_left hlen
      · exact ih g (by rw [hrest]; exact hg)

/-! ## C10: `chunked` is a partition into groups of size at most `n` -/

/-- C10: for `n > 0`, concatenating the groups of `chunked xs n` in order
reproduces `xs`; every group is nonempty of length at most `n`; every
group except possibly the last has length exactly `n`. -/
theorem chunked_partition_spec {α : Type} (xs : List α) (n : Nat) (hn : 0 < n) :
    (chunked xs n).flatten = xs
    ∧ (∀ g ∈ chunked xs n, g ≠ [] ∧ g.length ≤ n)
    ∧ (∀ g ∈ (chunked xs n).dropLast, g.length = n) :=
  ⟨chunked_join n hn xs, chunked_groups n hn xs, chunked_full n hn xs⟩

/-- Witness for C10 at a five-element list with group size 2. -/
theorem chunked_partition_spec_witness :
    (chunked [1, 2, 3, 4, 5] 2).flatten = [1, 2, 3, 4, 5]
    ∧ (∀ g ∈ chunked ([1, 2, 3, 4, 5] : List Nat) 2, g ≠ [] ∧ g.length ≤ 2)
    ∧ (∀ g ∈ (chunked ([1, 2, 3, 4, 5] : List Nat) 2).dropLast, g.length = 2) :=
  chunked_partition_spec [1, 2, 3, 4, 5] 2 (by decide)

/-! ## C6: one upstream call per group of at most 50 -/

lemma getVideoDetailsAux_calls (api : List String → DetailResponse) :
    ∀ batches : List (List String), (getVideoDetailsAux api batches).2 = batches := by
  intro batches
  induction batches with
  | nil => rfl
  | cons batch rest ih => simp [getVideoDetailsAux, ih]

/-- C6: `get_video_details` issues its upstream calls exactly on the
groups of `chunked(video_ids, 50)`; on a 120-identifier input this is
exactly 3 calls whose contiguous groups have sizes 50, 50, 20 in order
and concatenate back to the input. -/
theorem detail_batcher_batches (api : List String → DetailResponse)
    (xs : List String) (h : xs.length = 120) :
    (get_video_details api xs).2 = chunked xs 50
    ∧ (get_video_details api xs).2.length = 3
    ∧ (get_video_details api xs).2.map List.length = [50, 50, 20]
    ∧ (get_video_details api xs).2.flatten = xs := by
  have hc : (get_video_details api xs).2 = chunked xs 50 :=
    getVideoDetailsAux_calls api (chunked xs 50)
  have hne1 : xs ≠ [] := by intro hx; rw [hx] at h; simp at h
  have e1 : chunked xs 50 = xs.take 50 :: chunked (xs.drop 50) 50 :=
    chunked_cons 50 (by norm_num) xs hne1
  have hl1 : (xs.take 50).length = 50 := by simp [List.length_take, h]
  have hd1 : (xs.drop 50).length = 70 := by simp [List.length_drop, h]
  have hne2 : xs.drop 50 ≠ [] := by intro hx; rw [hx] at hd1; simp at hd1
  have e2 : chunked (xs.drop 50) 50
      = (xs.drop 50).take 50 :: chunked ((xs.drop 50).drop 50) 50 :=
    chunked_cons 50 (by norm_num) _ hne2
  have hl2 : ((xs.drop 50).take 50).length = 50 := by simp [List.length_take, hd1]
  have hd2 : ((xs.drop 50).drop 50).length = 20 := by
    rw [List.length_drop, hd1]
  have hne3 : (xs.drop 50).drop 50 ≠ [] := by intro hx; rw [hx] at hd2; simp at hd2
  have e3 : chunked ((xs.drop 50).drop 50) 50 = [(xs.drop 50).drop 50] := by
    have ht : List.take 50 ((xs.drop 50).drop 50) = (xs.drop 50).drop 50 :=
      List.take_of_length_le (by rw [hd2]; norm_num)
    have hdd : List.drop 50 ((xs.drop 50).drop 50) = [] :=
      List.drop_eq_nil_of_le (by rw [hd2]; norm_num)
    rw [chunked_cons 50 (by norm_num) _ hne3, ht, hdd, chunked_nil]
  refine ⟨hc, ?_, ?_, ?_⟩
  · rw [hc, e1, e2, e3]; rfl
  · rw [hc, e1, e2, e3]
    simp [hl1, hl2, hd2, h]
  · rw [hc]
    exact chunked_join 50 (by norm_num) xs

/-- Witness for C6 at the 120 identifiers `"0", ..., "119"` and an
upstream that returns no items. -/
theorem detail_batcher_batches_witness :
    (get_video_details (fun _ => ⟨[]⟩) ((List.range 120).map toString)).2.map List.length
      = [50, 50, 20] :=
  (detail_batcher_batches (fun _ => ⟨[]⟩) ((List.range 120).map toString)
    (by simp)).2.2.1

/-! ## C4: the ID collector is bounded and sound -/

lemma addItem_nodup (acc : List String) (item : SearchItem) (h : acc.Nodup) :
    (addItem acc item).Nodup := by
  unfold addItem
  cases extractVideoId item with
  | none => exact h
  | some v =>
    dsimp only
    by_cases h1 : v = ""
    · simpa [h1]
    · by_cases h2 : v ∈ acc
      · simpa [h1, h2]
      · rw [if_neg h1, if_neg h2]
        refine List.Nodup.append h (List.nodup_singleton v) ?_
        intro a ha hb
        rw [List.mem_singleton] at hb
        subst hb
        exact h2 ha

lemma addItem_mem (acc : List String) (item : SearchItem) (v : String)
    (h : v ∈ addItem acc item) : v ∈ acc ∨ extractVideoId item = some v := by
  unfold addItem at h
  revert h
  cases hx : extractVideoId item with
  | none => exact fun h => Or.inl h
  | some w =>
    dsimp only
    by_cases h1 : w = ""
    · rw [if_pos h1]; exact fun h => Or.inl h
    · by_cases h2 : w ∈ acc
      · rw [if_neg h1, if_pos h2]; exact fun h => Or.inl h
      · rw [if_neg h1, if_neg h2]
        intro h
        rcases List.mem_append.mp h with h | h
        · exact Or.inl h
        · rw [List.mem_singleton] at h
          subst h
          exact Or.inr rfl

lemma addItems_nodup (items : List SearchItem) :
    ∀ found : List String, found.Nodup → (addItems found items).Nodup := by
  induction items with
  | nil => exact fun _ h => h
  | cons item rest ih =>
    intro found h
    exact ih (addItem found item) (addItem_nodup found item h)

lemma addItems_mem (items : List SearchItem) :
    ∀ (found : List String) (v : String), v ∈ addItems found items →
      v ∈ found ∨ ∃ item ∈ items, extractVideoId item = some v := by
  induction items with
  | nil => exact fun _ _ h => Or.inl h
  | cons item rest ih =>
    intro found v h
    rcases ih (addItem found item) v h with h' | ⟨it, hit, hv⟩
    · rcases addItem_mem found item v h' with h'' | h''
      · exact Or.inl h''
      · exact Or.inr ⟨item, List.mem_cons_self _ _, h''⟩
    · exact Or.inr ⟨it, List.mem_cons_of_mem _ hit, hv⟩

/-- Loop invariant of `collectLoop`: starting from a duplicate-free set,
the final set is duplicate-free, and every element of it was already
present initially or was extracted from an item of a logged page. -/
lemma collectLoop_spec (api : Option String → SearchResponse) (maxResults : Nat) :
    ∀ (fuel : Nat) (token : Option String) (found : List String),
      found.Nodup →
      (collectLoop api maxResults fuel token found).1.Nodup
      ∧ (∀ v ∈ (collectLoop api maxResults fuel token found).1,
          v ∈ found ∨ ∃ resp ∈ (collectLoop api maxResults fuel token found).2,
            ∃ item ∈ resp.items, extractVideoId item = some v) := by
  intro fuel
  induction fuel with
  | zero =>
    intro token found h
    exact ⟨h, fun v hv => Or.inl hv⟩
  | succ fuel ih =>
    intro token found h
    by_cases hlt : found.length < maxResults
    · have hnodup' : (addItems found (api token).items).Nodup :=
        addItems_nodup (api token).items found h
      rcases hnp : (api token).nextPageToken with _ | t
      · have hres : collectLoop api maxResults (fuel + 1) token found
            = (addItems found (api token).items, [api token]) := by
          simp [collectLoop, hlt, hnp]
        rw [hres]
        refine ⟨hnodup', fun v hv => ?_⟩
        rcases addItems_mem (api token).items found v hv with h' | ⟨item, hit, hv'⟩
        · exact Or.inl h'
        · exact Or.inr ⟨api token, List.mem_singleton_self _, item, hit, hv'⟩
      · by_cases ht : t = ""
        · have hres : collectLoop api maxResults (fuel + 1) token found
              = (addItems found (api token).items, [api token]) := by
            simp [collectLoop, hlt, hnp, ht]
          rw [hres]
          refine ⟨hnodup', fun v hv => ?_⟩
          rcases addItems_mem (api token).items found v hv with h' | ⟨item, hit, hv'⟩
          · exact Or.inl h'
          · exact Or.inr ⟨api token, List.mem_singleton_self _, item, hit, hv'⟩
        · have hres : collectLoop api maxResults (fuel + 1) token found
              = ((collectLoop api maxResults fuel (some t)
                    (addItems found (api token).items)).1,
                 api token :: (collectLoop api maxResults fuel (some t)
                    (addItems found (api token).items)).2) := by
            simp [collectLoop, hlt, hnp, ht]
          rw [hres]
          have hrec := ih (some t) (addItems found (api token).items) hnodup'
          refine ⟨hrec.1, fun v hv => ?_⟩
          rcases hrec.2 v hv with h' | ⟨resp, hresp, item, hit, hv'⟩
          · rcases addItems_mem (api token).items found v h' with h'' | ⟨item, hit, hv'⟩
            · exact Or.inl h''
            · exact Or.inr ⟨api token, List.mem_cons_self _ _, item, hit, hv'⟩
          · exact Or.inr ⟨resp, List.mem_cons_of_mem _ hresp, item, hit, hv'⟩
    · have hres : collectLoop api maxResults (fuel + 1) token found = (found, []) := by
        simp [collectLoop, hlt]
      rw [hres]
      exact ⟨h, fun v hv => Or.inl hv⟩

/-- C4: for every run of `search_and_save_ids`, the persisted identifier
list has at most `max_results` elements, contains no duplicate, and each
of its identifiers was extracted from an item of one of the fetched
pages. -/
theorem collector_bounded_sound (api : Option String → SearchResponse)
    (maxResults fuel : Nat) :
    (search_and_save_ids api maxResults fuel).1.length ≤ maxResults
    ∧ (search_and_save_ids api maxResults fuel).1.Nodup
    ∧ ∀ v ∈ (search_and_save_ids api maxResults fuel).1,
        ∃ resp ∈ (search_and_save_ids api maxResults fuel).2,
          ∃ item ∈ resp.items, extractVideoId item = some v := by
  have hspec := collectLoop_spec api maxResults fuel none [] List.nodup_nil
  refine ⟨?_, ?_, ?_⟩
  · exact List.length_take_le maxResults _
  · exact List.Nodup.sublist (List.take_sublist _ _) hspec.1
  · intro v hv
    have hv' : v ∈ (collectLoop api maxResults fuel none []).1 :=
      List.mem_of_mem_take hv
    rcases hspec.2 v hv' with h | h
    · simp at h
    · exact h

/-- A fixed single-page upstream used as witness input: five items, two
sharing the id "abc", one with no id object, one with no videoId, one with
an empty videoId; no continuation token. -/
def onePageApi : Option String → SearchResponse := fun _ =>
  { items := [⟨some ⟨some "abc"⟩⟩, ⟨some ⟨some "abc"⟩⟩, ⟨none⟩,
              ⟨some ⟨none⟩⟩, ⟨some ⟨some ""⟩⟩],
    nextPageToken := none }

/-- Witness for C4 on `onePageApi` with target 5: the persisted list is
within the bound and its element "abc" comes from a fetched page. -/
theorem collector_bounded_sound_witness :
    (search_and_save_ids onePageApi 5 3).1.length ≤ 5
    ∧ ∃ resp ∈ (search_and_save_ids onePageApi 5 3).2,
        ∃ item ∈ resp.items, extractVideoId item = some "abc" :=
  ⟨(collector_bounded_sound onePageApi 5 3).1,
   (collector_bounded_sound onePageApi 5 3).2.2 "abc" (by decide)⟩

/-! ## C5: the numeric fields of produced records -/

/-- An upstream whose single item carries the statistic strings
`viewCount="-1"` (parses to a negative integer), `likeCount` absent and
`commentCount="abc"` (unparseable). -/
def negStatApi : List String → DetailResponse := fun _ =>
  { items := [{ id := some "v1", snippet := none,
                statistics := some ⟨some "-1", none, some "abc"⟩,
                contentDetails := none }] }

/-- C5 counterexample: `to_int` performs no clamping, so a record built
from a response whose `viewCount` statistic is the parseable string "-1"
carries the negative view count -1 — the produced counts are not always
non-negative.  (The missing `likeCount` and unparseable `commentCount`
do default to 0 as claimed.) -/
theorem video_counts_negative :
    (get_video_details negStatApi ["v1"]).1.map Row.viewCount = [-1]
    ∧ (get_video_details negStatApi ["v1"]).1.map Row.likeCount = [0]
    ∧ (get_video_details negStatApi ["v1"]).1.map Row.commentCount = [0]
    ∧ ¬ (∀ row ∈ (get_video_details negStatApi ["v1"]).1, 0 ≤ row.viewCount) := by
  refine ⟨by decide, by decide, by decide, by decide⟩

/-- C5 amended: every record produced by `get_video_details` is
`itemToRow` of an item of one of the batch responses; in every such
record the three count fields are integers equal to `to_int` of the raw
statistic — 0 when the statistic is missing (`None`) or unparseable, the
parsed integer (and hence non-negative exactly when that value is
non-negative, as it is for the API's unsigned decimal count strings) when
it parses. -/
theorem video_counts_from_to_int (api : List String → DetailResponse)
    (ids : List String) :
    (∀ row ∈ (get_video_details api ids).1,
      ∃ it : Item, (∃ b ∈ (get_video_details api ids).2, it ∈ (api b).items)
        ∧ row = itemToRow it)
    ∧ (∀ it : Item,
        (itemToRow it).viewCount = to_int (it.statistics.getD emptyStatistics).viewCount
        ∧ (itemToRow it).likeCount = to_int (it.statistics.getD emptyStatistics).likeCount
        ∧ (itemToRow it).commentCount
            = to_int (it.statistics.getD emptyStatistics).commentCount)
    ∧ (∀ x : Option String,
        (x = none → to_int x = 0)
        ∧ (∀ s, x = some s → pyIntOfString s = none → to_int x = 0)
        ∧ (∀ s n, x = some s → pyIntOfString s = some n →
            to_int x = n ∧ (0 ≤ n → 0 ≤ to_int x))) := by
  refine ⟨?_, fun it => ⟨rfl, rfl, rfl⟩, ?_⟩
  · have main : ∀ batches : List (List String),
        ∀ row ∈ (getVideoDetailsAux api batches).1,
          ∃ it : Item, (∃ b ∈ (getVideoDetailsAux api batches).2, it ∈ (api b).items)
            ∧ row = itemToRow it := by
      intro batches
      induction batches with
      | nil => intro row hrow; simp [getVideoDetailsAux] at hrow
      | cons batch rest ih =>
        intro row hrow
        simp only [getVideoDetailsAux] at hrow ⊢
        rcases List.mem_append.mp hrow with hr | hr
        · rcases List.mem_map.mp hr with ⟨it, hit, heq⟩
          exact ⟨it, ⟨batch, List.mem_cons_self _ _, hit⟩, heq.symm⟩
        · rcases ih row hr with ⟨it, ⟨b, hb, hbit⟩, heq⟩
          exact ⟨it, ⟨b, List.mem_cons_of_mem _ hb, hbit⟩, heq⟩
    exact main (chunked ids 50)
  · intro x
    refine ⟨?_, ?_, ?_⟩
    · intro hx; rw [hx]; rfl
    · intro s hx hp; rw [hx]; simp [to_int, hp]
    · intro s n hx hp
      rw [hx]
      have : to_int (some s) = n := by simp [to_int, hp]
      exact ⟨this, fun hn => by rw [this]; exact hn⟩

/-- Witness for the amended C5: a record of `negStatApi` is `itemToRow`
of the response item, its view count is `to_int` of "-1", its missing
like count and unparseable comment count are 0, and a parseable
non-negative statistic stays non-negative. -/
theorem video_counts_from_to_int_witness :
    (∃ it : Item, (∃ b ∈ (get_video_details negStatApi ["v1"]).2, it ∈ (negStatApi b).items)
      ∧ (itemToRow { id := some "v1", snippet := none,
                     statistics := some ⟨some "-1", none, some "abc"⟩,
                     contentDetails := none }) = itemToRow it)
    ∧ to_int (some "abc") = 0
    ∧ to_int none = 0
    ∧ to_int (some "5") = 5 ∧ (0 ≤ (5 : Int) → 0 ≤ to_int (some "5")) :=
  ⟨(video_counts_from_to_int negStatApi ["v1"]).1 _ (by decide),
   ((video_counts_from_to_int negStatApi ["v1"]).2.2 (some "abc")).2.1 "abc" rfl (by decide),
   ((video_counts_from_to_int negStatApi ["v1"]).2.2 none).1 rfl,
   (((video_counts_from_to_int negStatApi ["v1"]).2.2 (some "5")).2.2 "5" 5 rfl (by decide)).1,
   fun h => ((((video_counts_from_to_int negStatApi ["v1"]).2.2
     (some "5")).2.2 "5" 5 rfl (by decide)).2 h)⟩

end YTR
